import Mathlib

/-!
Shallow embedding of the conversation state controller in
`src/domain/services/app_state.rs` (struct `AppState` and its methods),
together with models of the external collaborators it calls
(message model, slash-command parser result, session store, editor and
backend connectors, view widgets).  External collaborators are not part of
`src/`, so they are modelled from the specification; every such definition
is marked `Modelled from the spec:` in its doc comment.  All controller
functions (`init`, `from_session`, `add_editor_context`, `reset_state`,
`handle_backend_response`, `handle_slash_commands`, `set_rect`,
`add_message`, `sync_dependants`, `save_session`) are translated directly
from the Rust source.
-/

namespace Purfect

/-- Modelled from the spec: message author enum (`Author` in
`domain/models`, used by `app_state.rs`): User, Model, or the system-level
"Oatmeal" narrator. -/
inductive Author where
  | User
  | Model
  | Oatmeal
deriving DecidableEq, Repr

/-- Modelled from the spec: message type enum (`MessageType` in
`domain/models`): Normal or Error. -/
inductive MessageType where
  | Normal
  | Error
deriving DecidableEq, Repr

/-- Modelled from the spec: the `Message` record of `domain/models` — one
turn of conversation with `author`, `message_type` and a `text` buffer. -/
structure Message where
  author : Author
  message_type : MessageType
  text : String
deriving DecidableEq, Repr

/-- Modelled from the spec: `Message::new(author, text)` constructs a
Normal-typed message. -/
def Message.new (author : Author) (text : String) : Message :=
  { author := author, message_type := MessageType.Normal, text := text }

/-- Modelled from the spec: `Message::new_with_type(author, ty, text)`. -/
def Message.new_with_type (author : Author) (ty : MessageType) (text : String) :
    Message :=
  { author := author, message_type := ty, text := text }

/-- Modelled from the spec: `Message::append` — the streaming-append
operation that accumulates streamed tokens onto the text buffer. -/
def Message.append (m : Message) (s : String) : Message :=
  { m with text := m.text ++ s }

/-- Modelled from the spec: `EditorContext` in `domain/models`; the
controller only uses its `format() -> String` projection, so we carry the
formatted form. -/
structure EditorContext where
  formatted : String
deriving DecidableEq, Repr

/-- Modelled from the spec: `EditorContext::format`. -/
def EditorContext.format (ec : EditorContext) : String :=
  ec.formatted

/-- Modelled from the spec: a streamed backend chunk
`{ author, text, done, context : Option<String> }` (`BackendResponse`). -/
structure BackendResponse where
  author : Author
  text : String
  done : Bool
  context : Option String
deriving DecidableEq, Repr

/-- Modelled from the spec: `AcceptType` for editor-write actions:
Append or Replace. -/
inductive AcceptType where
  | Append
  | Replace
deriving DecidableEq, Repr

/-- Modelled from the spec: the outbound channel's `Action` values:
`CopyMessages(List<Message>)` and
`AcceptCodeBlock(Option<EditorContext>, String, AcceptMode)`. -/
inductive Action where
  | CopyMessages (msgs : List Message)
  | AcceptCodeBlock (ctx : Option EditorContext) (text : String) (ty : AcceptType)
deriving DecidableEq, Repr

/-- Modelled from the spec: the discriminants of the slash-command grammar
that `handle_slash_commands` inspects through its boolean predicates; an
extra `Other` covers recognized commands matching none of the predicates. -/
inductive CommandKind where
  | Quit
  | AppendCodeBlock
  | ReplaceCodeBlock
  | CopyCodeBlock
  | CopyChat
  | ModelSet
  | New
  | Other
deriving DecidableEq, Repr

/-- Modelled from the spec: the parsed `SlashCommand` (a command kind and
an `args` list); `SlashCommand::parse(line)` is the external parser, so
dispatch is modelled on its `Option SlashCommand` result. -/
structure SlashCommand where
  kind : CommandKind
  args : List String
deriving DecidableEq, Repr

def SlashCommand.is_quit (c : SlashCommand) : Bool := c.kind = CommandKind.Quit

def SlashCommand.is_append_code_block (c : SlashCommand) : Bool :=
  c.kind = CommandKind.AppendCodeBlock

def SlashCommand.is_replace_code_block (c : SlashCommand) : Bool :=
  c.kind = CommandKind.ReplaceCodeBlock

def SlashCommand.is_copy_code_block (c : SlashCommand) : Bool :=
  c.kind = CommandKind.CopyCodeBlock

def SlashCommand.is_copy_chat (c : SlashCommand) : Bool :=
  c.kind = CommandKind.CopyChat

def SlashCommand.is_model_set (c : SlashCommand) : Bool :=
  c.kind = CommandKind.ModelSet

def SlashCommand.is_new (c : SlashCommand) : Bool := c.kind = CommandKind.New

/-- Modelled from the spec: a theme value as produced by the external
theme resolver; the controller only threads it into the bubble list. -/
structure Theme where
  name : String
deriving DecidableEq, Repr

/-- Modelled from the spec: the rendered bubble-list widget — a function
of the message list and the last-known width; `len` is its rendered
length used for scroll bounds. -/
structure BubbleList where
  theme : Theme
  rendered : List Message
  width : Nat
deriving DecidableEq, Repr

/-- Modelled from the spec: `BubbleList::new(theme)`. -/
def BubbleList.new (theme : Theme) : BubbleList :=
  { theme := theme, rendered := [], width := 0 }

/-- Modelled from the spec: `BubbleList::set_messages` recomputes the
layout from the message list and width. -/
def BubbleList.set_messages (bl : BubbleList) (msgs : List Message)
    (width : Nat) : BubbleList :=
  { bl with rendered := msgs, width := width }

/-- Modelled from the spec: `BubbleList::len` — length of the rendered
layout. -/
def BubbleList.len (bl : BubbleList) : Nat :=
  bl.rendered.length

/-- Modelled from the spec: the scroll widget — a viewport position over
content bounds; `Scroll::default()` starts at zero. -/
structure Scroll where
  position : Nat
  content_length : Nat
  viewport_height : Nat
deriving DecidableEq, Repr

instance : Inhabited Scroll := ⟨⟨0, 0, 0⟩⟩

/-- Modelled from the spec: `Scroll::set_state(len, height)` recomputes
scroll bounds from content length and viewport height, clamping the
position into the new bounds. -/
def Scroll.set_state (sc : Scroll) (len height : Nat) : Scroll :=
  { sc with
    content_length := len
    viewport_height := height
    position := min sc.position (len - min len height) }

/-- Modelled from the spec: `Scroll::last()` forces the viewport to the
bottom of the content. -/
def Scroll.last (sc : Scroll) : Scroll :=
  { sc with position := sc.content_length - min sc.content_length sc.viewport_height }

/-- Modelled from the spec: one persisted session record — the session
store keeps `(backend_context, editor_context, messages)` keyed by the
session id. -/
structure Session where
  backend_context : String
  editor_context : Option EditorContext
  messages : List Message
deriving DecidableEq, Repr

/-- Modelled from the spec: the session store's contents, a map from
session id to persisted record. -/
def Store : Type := String → Option Session

/-- Modelled from the spec: `Sessions::load(id)` — fails when the id is
absent from the store. -/
def Sessions.load (store : Store) (id : String) : Except String Session :=
  match store id with
  | some s => Except.ok s
  | none => Except.error "session not found"

/-- Modelled from the spec: the external collaborators `handle_*` calls
out to — the code-block registry's extraction
(`CodeBlocks::replace_from_messages`) and resolution
(`CodeBlocks::blocks_from_slash_commands`). -/
structure Ext where
  extract : List Message → List String
  resolve : List String → SlashCommand → Except String String

/-- The `AppState` struct of `app_state.rs`, field for field; the
code-block registry is its list of extracted blocks. -/
structure AppState where
  backend_context : String
  bubble_list : BubbleList
  codeblocks : List String
  editor_context : Option EditorContext
  exit_warning : Bool
  last_known_height : Nat
  last_known_width : Nat
  messages : List Message
  scroll : Scroll
  session_id : String
  waiting_for_backend : Bool
deriving DecidableEq, Repr

/-- `editor_message` from `app_state.rs`: the Model-authored opener
presenting the formatted editor context. -/
def editor_message (editor_context : String) : Message :=
  Message.new Author.Model
    ("Hey there! Let's talk about the following: \n\n" ++ editor_context)

/-- `intro_message` from `app_state.rs`: the generic greeting. -/
def intro_message : Message :=
  Message.new Author.Model "Hey there! What can I do for you?"

/-- `sync_dependants` from `app_state.rs`: recompute bubble layout from
messages and width, scroll bounds from layout length and height, and pin
the scroll to the bottom while waiting on the backend. -/
def sync_dependants (st : AppState) : AppState :=
  let bl := st.bubble_list.set_messages st.messages st.last_known_width
  let sc := st.scroll.set_state bl.len st.last_known_height
  let sc := if st.waiting_for_backend then sc.last else sc
  { st with bubble_list := bl, scroll := sc }

/-- `add_message` from `app_state.rs`: append, re-sync dependants, scroll
to the bottom. -/
def add_message (st : AppState) (message : Message) : AppState :=
  let st := { st with messages := st.messages ++ [message] }
  let st := sync_dependants st
  { st with scroll := st.scroll.last }

/-- `set_rect` from `app_state.rs`: record the viewport dimensions and
re-sync dependants. -/
def set_rect (st : AppState) (width height : Nat) : AppState :=
  sync_dependants { st with last_known_width := width, last_known_height := height }

/-- `reset_state` from `app_state.rs`: clear backend context, exit
warning, dimensions and history, mint a fresh session id (`new_id`, drawn
from the external `Sessions::create_id`), reset scroll, optionally drop
the editor context, then reseed exactly one opening message. -/
def reset_state (new_id : String) (st : AppState) (clear_context : Bool) : AppState :=
  let st := { st with
    backend_context := ""
    exit_warning := false
    last_known_width := 0
    last_known_height := 0
    messages := []
    session_id := new_id
    scroll := default }
  let st := if clear_context then { st with editor_context := none } else st
  match st.editor_context with
  | some ec => { st with messages := st.messages ++ [editor_message ec.format] }
  | none => { st with messages := st.messages ++ [intro_message] }

/-- Mutate the last element of a list in place, as `last_mut` does. -/
def modifyLast (f : α → α) : List α → List α
  | [] => []
  | [x] => [f x]
  | x :: y :: xs => x :: modifyLast f (y :: xs)

/-- The narrator error pushed by `handle_backend_response` when the
backend completed a turn without supplying a context token. -/
def noContextError : Message :=
  Message.new_with_type Author.Oatmeal MessageType.Error
    "Error: No context was provided by the backend upon completion. Please report this bug on Github."

/-- `handle_backend_response` from `app_state.rs`.  The source unwraps
`messages.last_mut()`, so the empty-history case (a panic in Rust) is
`none`.  On a continuation (last author not User) the chunk's text is
appended in place; otherwise a new message by the chunk's author is
pushed.  On `done`: clear `waiting_for_backend`, store a supplied context
token, surface a narrator error if the context is still empty, and
rebuild the code-block registry. -/
def handle_backend_response (ext : Ext) (st : AppState) (msg : BackendResponse) :
    Option AppState :=
  match st.messages.getLast? with
  | none => none
  | some last_message =>
    let st :=
      if last_message.author ≠ Author.User then
        { st with messages := modifyLast (fun m => m.append msg.text) st.messages }
      else
        { st with messages := st.messages ++ [Message.new msg.author msg.text] }
    let st := sync_dependants st
    if msg.done then
      let st := { st with waiting_for_backend := false }
      let st :=
        match msg.context with
        | some ctx => { st with backend_context := ctx }
        | none => st
      let st :=
        if st.backend_context = "" then
          sync_dependants (add_message st noContextError)
        else st
      some { st with codeblocks := ext.extract st.messages }
    else
      some st

/-- Result of `handle_slash_commands`: the mutated state, the actions sent
on the outbound channel (in order), and the `(should_break,
should_continue)` pair the Rust function returns as
`(should_terminate, should_skip_backend_send)`. -/
structure DispatchResult where
  state : AppState
  actions : List Action
  should_break : Bool
  should_continue : Bool
deriving Repr

/-- The narrator error `handle_slash_commands` appends when the
code-block registry cannot resolve the referenced block. -/
def commandParseError (err : String) : Message :=
  Message.new_with_type Author.Oatmeal MessageType.Error
    ("There was an error trying to parse your command:\n\n" ++ err)

/-- The tail of `handle_slash_commands` after the code-block group: the
`is_copy_chat`, `is_model_set` and `is_new` checks, which the Rust
function runs in sequence before returning. -/
def dispatch_tail (new_id : String) (command : SlashCommand) (st : AppState)
    (acts : List Action) (should_break should_continue : Bool) : DispatchResult :=
  let step :=
    if command.is_copy_chat then
      ({ st with waiting_for_backend := true },
        acts ++ [Action.CopyMessages st.messages], true)
    else (st, acts, should_continue)
  let st := step.1
  let acts := step.2.1
  let should_continue := step.2.2
  let st := if command.is_model_set then { st with backend_context := "" } else st
  let step2 :=
    if command.is_new then
      (reset_state new_id st
        (!command.args.isEmpty && (command.args.headD "") = "clear"), true)
    else (st, should_continue)
  ⟨step2.1, acts, should_break, step2.2⟩

/-- `handle_slash_commands` from `app_state.rs`, over the external
parser's result (`SlashCommand::parse(input)`), the external code-block
resolver, and the fresh session id used by a `/new` reset.  Sends on the
outbound channel are collected into the `actions` list. -/
def handle_slash_commands (ext : Ext) (new_id : String) (st : AppState)
    (parsed : Option SlashCommand) : DispatchResult :=
  match parsed with
  | none => ⟨st, [], false, false⟩
  | some command =>
    let should_break := command.is_quit
    if command.is_append_code_block || command.is_replace_code_block
        || command.is_copy_code_block then
      let should_continue := true
      match ext.resolve st.codeblocks command with
      | Except.error err =>
        let st := add_message st (commandParseError err)
        ⟨st, [], should_break, should_continue⟩
      | Except.ok text =>
        if command.is_copy_code_block then
          ⟨{ st with waiting_for_backend := true },
            [Action.CopyMessages [Message.new Author.Model text]],
            should_break, should_continue⟩
        else
          let accept_type :=
            if command.is_replace_code_block then AcceptType.Replace
            else AcceptType.Append
          dispatch_tail new_id command st
            [Action.AcceptCodeBlock st.editor_context text accept_type]
            should_break should_continue
    else
      dispatch_tail new_id command st [] should_break false

/-- `save_session` from `app_state.rs`: write `(session_id,
backend_context, editor_context, messages)` to the session store keyed by
`session_id`. -/
def save_session (store : Store) (st : AppState) : Store :=
  fun id =>
    if id = st.session_id then
      some ⟨st.backend_context, st.editor_context, st.messages⟩
    else store id

/-- The `AppStateProps` struct of `app_state.rs`. -/
structure AppStateProps where
  backend_name : String
  editor_name : String
  model_name : String
  theme_name : String
  theme_file : String
  session_id : Option String

/-- Modelled from the spec: the results of the external calls
initialization makes, one field per collaborator call — theme resolution
(`Themes::get`), backend resolution (`BackendManager::get`), the backend
health probe and model listing, editor resolution (`EditorManager::get`),
the editor health probe, the editor context fetch, and the fresh session
id (`Sessions::create_id`).  Errors are carried as display strings. -/
structure InitEnv where
  theme : Except String Theme
  backend_get : Except String Unit
  health_check : Except String Unit
  list_models : Except String (List String)
  editor_get : Except String Unit
  editor_health : Except String Unit
  get_context : Except String (Option EditorContext)
  create_id : String

/-- The backend-down narrator error of `init`. -/
def backendDownError (backend_name err : String) : Message :=
  Message.new_with_type Author.Oatmeal MessageType.Error
    ("Hey, it looks like backend " ++ backend_name
      ++ " isn't running, I can't connect to it. You should double check that before we start talking, otherwise I may crash.\n\nError: "
      ++ err)

/-- The missing-model narrator error of `init`. -/
def modelMissingError (model_name backend_name : String) : Message :=
  Message.new_with_type Author.Oatmeal MessageType.Error
    ("Model " ++ model_name ++ " doesn't exist for backend " ++ backend_name
      ++ ". You can use `/modellist` to view all avaiable models, and `/model NAME` to switch models.")

/-- The editor-unhealthy narrator error of `add_editor_context`. -/
def editorDownError (editor_name err : String) : Message :=
  Message.new_with_type Author.Oatmeal MessageType.Error
    ("Whoops, it looks like editor " ++ editor_name
      ++ " isn't setup properly. You should double check that before we start talking, otherwise I may crash.\n\nError: "
      ++ err)

/-- `add_editor_context` from `app_state.rs`: fail when the editor name is
empty or the editor does not resolve; on a failed health probe append a
narrator error and succeed; on fetched context store it and append the
editor greeting; on absent context fail with "No editor context"
(a fetch error propagates). -/
def add_editor_context (env : InitEnv) (editor_name : String) (st : AppState) :
    Except String AppState :=
  if editor_name = "" then Except.error "Editor name not set."
  else
    match env.editor_get with
    | Except.error _ => Except.error "Failed to load editor from manager"
    | Except.ok _ =>
      match env.editor_health with
      | Except.error err =>
        Except.ok { st with
          messages := st.messages ++ [editorDownError editor_name err] }
      | Except.ok _ =>
        match env.get_context with
        | Except.error e => Except.error e
        | Except.ok (some editor_context) =>
          Except.ok { st with
            editor_context := some editor_context
            messages := st.messages ++ [editor_message editor_context.format] }
        | Except.ok none => Except.error "No editor context"

/-- `init` from `app_state.rs`: resolve the theme (fatal on failure),
build the empty state with a fresh id, resolve the backend (fatal), seed
a narrator error if the health probe fails, otherwise list models (fatal
on failure) and seed a narrator error if the configured model is absent;
then attach editor context, falling back to the generic greeting when
that fails for any reason. -/
def init (env : InitEnv) (props : AppStateProps) : Except String AppState := do
  let backend_name := props.backend_name
  let model_name := props.model_name
  let theme ← env.theme
  let app_state : AppState := {
    backend_context := ""
    bubble_list := BubbleList.new theme
    codeblocks := []
    editor_context := none
    exit_warning := false
    last_known_height := 0
    last_known_width := 0
    messages := []
    scroll := default
    session_id := env.create_id
    waiting_for_backend := false }
  let _ ← env.backend_get
  let app_state ←
    match env.health_check with
    | Except.error err =>
      pure { app_state with
        messages := app_state.messages ++ [backendDownError backend_name err] }
    | Except.ok _ => do
      let models ← env.list_models
      if model_name ∈ models then pure app_state
      else
        pure { app_state with
          messages := app_state.messages
            ++ [modelMissingError model_name backend_name] }
  match add_editor_context env props.editor_name app_state with
  | Except.ok app_state => pure app_state
  | Except.error _ =>
    pure { app_state with messages := app_state.messages ++ [intro_message] }

/-- `from_session` from `app_state.rs`: load the persisted session by id
(fatal on failure), resolve the theme (fatal), rebuild the code-block
registry from the restored messages, and re-attach live editor context
only when the editor resolves and its health probe passes (a context
fetch error propagates).  `session_id` is taken from the props; the Rust
source unwraps it, so its absence is modelled as failure. -/
def from_session (env : InitEnv) (ext : Ext) (store : Store)
    (props : AppStateProps) : Except String AppState := do
  let session_id ← match props.session_id with
    | some id => pure id
    | none => Except.error "panic: session id missing"
  let session ← Sessions.load store session_id
  let theme ← env.theme
  let app_state : AppState := {
    backend_context := session.backend_context
    bubble_list := BubbleList.new theme
    codeblocks := []
    editor_context := none
    exit_warning := false
    last_known_height := 0
    last_known_width := 0
    messages := session.messages
    scroll := default
    session_id := session_id
    waiting_for_backend := false }
  let app_state := { app_state with codeblocks := ext.extract app_state.messages }
  match env.editor_get with
  | Except.error _ => pure app_state
  | Except.ok _ =>
    match env.editor_health with
    | Except.error _ => pure app_state
    | Except.ok _ => do
      let ctx ← env.get_context
      pure { app_state with editor_context := ctx }

/-! ### Basic lemmas about the view-sync primitives -/

@[simp]
theorem sync_dependants_messages (st : AppState) :
    (sync_dependants st).messages = st.messages := rfl

@[simp]
theorem sync_dependants_backend_context (st : AppState) :
    (sync_dependants st).backend_context = st.backend_context := rfl

@[simp]
theorem sync_dependants_editor_context (st : AppState) :
    (sync_dependants st).editor_context = st.editor_context := rfl

@[simp]
theorem sync_dependants_waiting (st : AppState) :
    (sync_dependants st).waiting_for_backend = st.waiting_for_backend := rfl

@[simp]
theorem sync_dependants_codeblocks (st : AppState) :
    (sync_dependants st).codeblocks = st.codeblocks := rfl

@[simp]
theorem sync_dependants_session_id (st : AppState) :
    (sync_dependants st).session_id = st.session_id := rfl

@[simp]
theorem add_message_messages (st : AppState) (m : Message) :
    (add_message st m).messages = st.messages ++ [m] := rfl

@[simp]
theorem add_message_backend_context (st : AppState) (m : Message) :
    (add_message st m).backend_context = st.backend_context := rfl

@[simp]
theorem add_message_editor_context (st : AppState) (m : Message) :
    (add_message st m).editor_context = st.editor_context := rfl

@[simp]
theorem add_message_waiting (st : AppState) (m : Message) :
    (add_message st m).waiting_for_backend = st.waiting_for_backend := rfl

@[simp]
theorem add_message_codeblocks (st : AppState) (m : Message) :
    (add_message st m).codeblocks = st.codeblocks := rfl

theorem modifyLast_concat (f : α → α) (ms : List α) (x : α) :
    modifyLast f (ms ++ [x]) = ms ++ [f x] := by
  induction ms with
  | nil => rfl
  | cons a ms ih =>
    cases ms with
    | nil => rfl
    | cons b ms => simpa [modifyLast] using ih

/-! ### Step lemmas for `handle_backend_response` -/

theorem hbr_push_notdone (ext : Ext) (st : AppState) (msg : BackendResponse)
    (u : Message) (hlast : st.messages.getLast? = some u)
    (hu : u.author = Author.User) (hdone : msg.done = false) :
    handle_backend_response ext st msg =
      some (sync_dependants
        { st with messages := st.messages ++ [Message.new msg.author msg.text] }) := by
  rw [handle_backend_response, hlast]
  simp [hu, hdone]

theorem hbr_cont_notdone (ext : Ext) (st : AppState) (msg : BackendResponse)
    (ms : List Message) (m : Message) (hms : st.messages = ms ++ [m])
    (hm : m.author ≠ Author.User) (hdone : msg.done = false) :
    handle_backend_response ext st msg =
      some (sync_dependants { st with messages := ms ++ [m.append msg.text] }) := by
  rw [handle_backend_response, hms, List.getLast?_concat]
  simp [hm, hdone, modifyLast_concat]

theorem hbr_cont_done_nocontext (ext : Ext) (st : AppState)
    (msg : BackendResponse) (ms : List Message) (m : Message)
    (hms : st.messages = ms ++ [m]) (hm : m.author ≠ Author.User)
    (hdone : msg.done = true) (hctx : msg.context = none)
    (hbc : st.backend_context = "") :
    ∃ st', handle_backend_response ext st msg = some st' ∧
      st'.messages = ms ++ [m.append msg.text, noContextError] ∧
      st'.backend_context = "" ∧ st'.waiting_for_backend = false := by
  rw [handle_backend_response, hms, List.getLast?_concat]
  simp only [hm, hdone, hctx, modifyLast_concat, ite_not, ite_true, ite_false,
    not_false_eq_true, if_neg, if_pos, sync_dependants_backend_context, hbc]
  simp [hbc]

/-- C1: from any state whose history ends in a User message (and whose
backend context is still empty), three `done=false` Model chunks "a","b",
"c" add exactly one new message with text "abc"; a following `done=true`
chunk with no context token then appends exactly one Error-typed Oatmeal
narrator message. -/
theorem C1_streaming_fold (ext : Ext) (st : AppState) (u : Message)
    (hlast : st.messages.getLast? = some u) (hu : u.author = Author.User)
    (hbc : st.backend_context = "") (t : String) :
    ∃ st1 st2,
      (do
        let s1 ← handle_backend_response ext st ⟨Author.Model, "a", false, none⟩
        let s2 ← handle_backend_response ext s1 ⟨Author.Model, "b", false, none⟩
        handle_backend_response ext s2 ⟨Author.Model, "c", false, none⟩) = some st1 ∧
      st1.messages = st.messages ++ [Message.new Author.Model "abc"] ∧
      handle_backend_response ext st1 ⟨Author.Model, t, true, none⟩ = some st2 ∧
      st2.messages =
        st.messages ++ [Message.new Author.Model ("abc" ++ t), noContextError] ∧
      noContextError.author = Author.Oatmeal ∧
      noContextError.message_type = MessageType.Error := by
  have h1 := hbr_push_notdone ext st ⟨Author.Model, "a", false, none⟩ u hlast hu rfl
  set s1 := sync_dependants
    { st with messages := st.messages ++ [Message.new Author.Model "a"] } with hs1
  have hs1m : s1.messages = st.messages ++ [Message.new Author.Model "a"] := by
    simp [hs1]
  have h2 := hbr_cont_notdone ext s1 ⟨Author.Model, "b", false, none⟩
    st.messages (Message.new Author.Model "a") hs1m (by decide) rfl
  have happ1 : (Message.new Author.Model "a").append "b" =
      Message.new Author.Model "ab" := rfl
  rw [happ1] at h2
  set s2 := sync_dependants
    { s1 with messages := st.messages ++ [Message.new Author.Model "ab"] } with hs2
  have hs2m : s2.messages = st.messages ++ [Message.new Author.Model "ab"] := by
    simp [hs2]
  have h3 := hbr_cont_notdone ext s2 ⟨Author.Model, "c", false, none⟩
    st.messages (Message.new Author.Model "ab") hs2m (by decide) rfl
  have happ2 : (Message.new Author.Model "ab").append "c" =
      Message.new Author.Model "abc" := rfl
  rw [happ2] at h3
  set s3 := sync_dependants
    { s2 with messages := st.messages ++ [Message.new Author.Model "abc"] } with hs3
  have hs3m : s3.messages = st.messages ++ [Message.new Author.Model "abc"] := by
    simp [hs3]
  have hs3bc : s3.backend_context = "" := by simp [hs3, hs2, hs1, hbc]
  obtain ⟨st2, hst2, hst2m, -, -⟩ := hbr_cont_done_nocontext ext s3
    ⟨Author.Model, t, true, none⟩ st.messages (Message.new Author.Model "abc")
    hs3m (by decide) rfl rfl hs3bc
  refine ⟨s3, st2, ?_, hs3m, hst2, ?_, rfl, rfl⟩
  · simp [h1, h2, h3]
  · simpa [Message.new, Message.append] using hst2m

/-- C1 witness: the streaming fold at a concrete one-User-message state,
with "x" as the text of the final `done` chunk. -/
theorem C1_streaming_fold_witness :
    ∃ st1 st2,
      (do
        let s1 ← handle_backend_response ⟨fun _ => [], fun _ _ => Except.ok ""⟩
          { backend_context := ""
            bubble_list := BubbleList.new ⟨"default"⟩
            codeblocks := []
            editor_context := none
            exit_warning := false
            last_known_height := 0
            last_known_width := 0
            messages := [Message.new Author.User "hi"]
            scroll := default
            session_id := "s"
            waiting_for_backend := true } ⟨Author.Model, "a", false, none⟩
        let s2 ← handle_backend_response ⟨fun _ => [], fun _ _ => Except.ok ""⟩ s1
          ⟨Author.Model, "b", false, none⟩
        handle_backend_response ⟨fun _ => [], fun _ _ => Except.ok ""⟩ s2
          ⟨Author.Model, "c", false, none⟩) = some st1 ∧
      st1.messages = [Message.new Author.User "hi"]
        ++ [Message.new Author.Model "abc"] ∧
      handle_backend_response ⟨fun _ => [], fun _ _ => Except.ok ""⟩ st1
        ⟨Author.Model, "x", true, none⟩ = some st2 ∧
      st2.messages = [Message.new Author.User "hi"]
        ++ [Message.new Author.Model ("abc" ++ "x"), noContextError] ∧
      noContextError.author = Author.Oatmeal ∧
      noContextError.message_type = MessageType.Error :=
  C1_streaming_fold ⟨fun _ => [], fun _ _ => Except.ok ""⟩
    { backend_context := ""
      bubble_list := BubbleList.new ⟨"default"⟩
      codeblocks := []
      editor_context := none
      exit_warning := false
      last_known_height := 0
      last_known_width := 0
      messages := [Message.new Author.User "hi"]
      scroll := default
      session_id := "s"
      waiting_for_backend := true }
    (Message.new Author.User "hi") rfl rfl rfl "x"

/-- C3: after `reset_state(false)` with editor context still present, the
history is exactly one message whose text begins with the editor-context
greeting prefix; after `reset_state(true)` the editor context is gone and
the seeded message is the generic greeting; for either argument the
history is never left empty. -/
theorem C3_reset_postconditions :
    (∀ (new_id : String) (st : AppState) (ec : EditorContext),
      st.editor_context = some ec →
        (reset_state new_id st false).messages.length = 1 ∧
        (reset_state new_id st false).messages.head? =
          some (editor_message ec.format) ∧
        ∃ rest, (editor_message ec.format).text =
          "Hey there! Let's talk about the following: \n\n" ++ rest) ∧
    (∀ (new_id : String) (st : AppState),
      (reset_state new_id st true).editor_context = none ∧
      (reset_state new_id st true).messages.head? = some intro_message) ∧
    (∀ (new_id : String) (st : AppState) (clear_context : Bool),
      (reset_state new_id st clear_context).messages ≠ []) := by
  refine ⟨?_, ?_, ?_⟩
  · intro new_id st ec hec
    simp [reset_state, hec, editor_message, Message.new]
  · intro new_id st
    simp [reset_state]
  · intro new_id st clear_context
    cases clear_context with
    | true => simp [reset_state]
    | false =>
      cases h : st.editor_context with
      | none => simp [reset_state, h]
      | some ec => simp [reset_state, h]

/-- C3 witness: the reset postconditions at a concrete state carrying an
editor context. -/
theorem C3_reset_postconditions_witness :
    (reset_state "fresh"
      { backend_context := "tok"
        bubble_list := BubbleList.new ⟨"default"⟩
        codeblocks := []
        editor_context := some ⟨"fn main() {}"⟩
        exit_warning := true
        last_known_height := 7
        last_known_width := 9
        messages := [intro_message, Message.new Author.User "hi"]
        scroll := default
        session_id := "old"
        waiting_for_backend := true } false).messages.length = 1 :=
  (C3_reset_postconditions.1 "fresh" _ ⟨"fn main() {}"⟩ rfl).1

/-- C5: slash-command dispatch returns `(true, false)` for quit,
`(false, true)` for `/new clear` (additionally clearing the editor
context), and `(false, false)` for any input that does not parse as a
recognized command. -/
theorem C5_dispatch_returns :
    (∀ (ext : Ext) (new_id : String) (st : AppState) (args : List String),
      (handle_slash_commands ext new_id st
        (some ⟨CommandKind.Quit, args⟩)).should_break = true ∧
      (handle_slash_commands ext new_id st
        (some ⟨CommandKind.Quit, args⟩)).should_continue = false) ∧
    (∀ (ext : Ext) (new_id : String) (st : AppState),
      (handle_slash_commands ext new_id st
        (some ⟨CommandKind.New, ["clear"]⟩)).should_break = false ∧
      (handle_slash_commands ext new_id st
        (some ⟨CommandKind.New, ["clear"]⟩)).should_continue = true ∧
      (handle_slash_commands ext new_id st
        (some ⟨CommandKind.New, ["clear"]⟩)).state.editor_context = none) ∧
    (∀ (ext : Ext) (new_id : String) (st : AppState),
      (handle_slash_commands ext new_id st none).should_break = false ∧
      (handle_slash_commands ext new_id st none).should_continue = false) := by
  refine ⟨?_, ?_, ?_⟩
  · intro ext new_id st args
    simp [handle_slash_commands, dispatch_tail, SlashCommand.is_quit,
      SlashCommand.is_append_code_block, SlashCommand.is_replace_code_block,
      SlashCommand.is_copy_code_block, SlashCommand.is_copy_chat,
      SlashCommand.is_model_set, SlashCommand.is_new]
  · intro ext new_id st
    simp [handle_slash_commands, dispatch_tail, SlashCommand.is_quit,
      SlashCommand.is_append_code_block, SlashCommand.is_replace_code_block,
      SlashCommand.is_copy_code_block, SlashCommand.is_copy_chat,
      SlashCommand.is_model_set, SlashCommand.is_new, reset_state]
  · intro ext new_id st
    simp [handle_slash_commands]

@[simp]
theorem exceptBindOk (a : α) (f : α → Except ε β) :
    (Except.ok a >>= f : Except ε β) = f a := rfl

@[simp]
theorem exceptBindError (e : ε) (f : α → Except ε β) :
    ((Except.error e : Except ε α) >>= f) = Except.error e := rfl

@[simp]
theorem exceptPureEq (a : α) : (pure a : Except ε α) = Except.ok a := rfl

/-- The generic greeting is never one of the narrator error messages. -/
theorem intro_message_ne_error (a : Author) (s : String) :
    intro_message ≠ Message.new_with_type a MessageType.Error s := by
  simp [intro_message, Message.new, Message.new_with_type]

/-- C4: when the editor resolves but its health probe fails,
`add_editor_context` appends exactly one Error-typed Oatmeal narrator
message and returns success; and in that branch a successful `init` ends
with that narrator message and never also seeds the generic greeting. -/
theorem C4_editor_health_nonfatal :
    (∀ (env : InitEnv) (name : String) (st : AppState) (err : String),
      name ≠ "" → env.editor_get = Except.ok () →
      env.editor_health = Except.error err →
        add_editor_context env name st =
          Except.ok { st with
            messages := st.messages ++ [editorDownError name err] } ∧
        (editorDownError name err).message_type = MessageType.Error ∧
        (editorDownError name err).author = Author.Oatmeal) ∧
    (∀ (env : InitEnv) (props : AppStateProps) (err : String) (st' : AppState),
      props.editor_name ≠ "" → env.editor_get = Except.ok () →
      env.editor_health = Except.error err →
      init env props = Except.ok st' →
        st'.messages.getLast? = some (editorDownError props.editor_name err) ∧
        intro_message ∉ st'.messages) := by
  have key : ∀ (env : InitEnv) (name : String) (st : AppState) (err : String),
      name ≠ "" → env.editor_get = Except.ok () →
      env.editor_health = Except.error err →
      add_editor_context env name st =
        Except.ok { st with
          messages := st.messages ++ [editorDownError name err] } := by
    intro env name st err hname hget hhealth
    simp [add_editor_context, hname, hget, hhealth]
  refine ⟨fun env name st err hname hget hhealth =>
    ⟨key env name st err hname hget hhealth, rfl, rfl⟩, ?_⟩
  intro env props err st' hname hget hhealth hinit
  cases hth : env.theme with
  | error e => simp [init, hth] at hinit
  | ok theme =>
    cases hbg : env.backend_get with
    | error e => simp [init, hth, hbg] at hinit
    | ok u =>
      cases hhc : env.health_check with
      | error berr =>
        rw [init] at hinit
        simp only [hth, hbg, hhc, exceptBindOk, exceptPureEq] at hinit
        rw [key env props.editor_name _ err hname hget hhealth] at hinit
        cases hinit
        constructor
        · exact List.getLast?_concat _
        · simp [List.mem_append, backendDownError, editorDownError,
            intro_message, Message.new, Message.new_with_type]
      | ok v =>
        cases hlm : env.list_models with
        | error e => simp [init, hth, hbg, hhc, hlm] at hinit
        | ok models =>
          by_cases hmem : props.model_name ∈ models
          · rw [init] at hinit
            simp only [hth, hbg, hhc, hlm, hmem, exceptBindOk, exceptPureEq,
              if_pos, if_true] at hinit
            rw [key env props.editor_name _ err hname hget hhealth] at hinit
            cases hinit
            constructor
            · exact List.getLast?_concat _
            · simp [List.mem_append, editorDownError, intro_message,
                Message.new, Message.new_with_type]
          · rw [init] at hinit
            simp only [hth, hbg, hhc, hlm, hmem, exceptBindOk, exceptPureEq,
              if_neg, if_false] at hinit
            rw [key env props.editor_name _ err hname hget hhealth] at hinit
            cases hinit
            constructor
            · exact List.getLast?_concat _
            · simp [List.mem_append, modelMissingError, editorDownError,
                intro_message, Message.new, Message.new_with_type]

/-- C4 witness: the health-probe-failure branch at a concrete
environment and state. -/
theorem C4_editor_health_nonfatal_witness :
    add_editor_context
      ⟨Except.ok ⟨"t"⟩, Except.ok (), Except.ok (), Except.ok [],
        Except.ok (), Except.error "down", Except.ok none, "fresh"⟩
      "neovim"
      { backend_context := ""
        bubble_list := BubbleList.new ⟨"t"⟩
        codeblocks := []
        editor_context := none
        exit_warning := false
        last_known_height := 0
        last_known_width := 0
        messages := []
        scroll := default
        session_id := "s"
        waiting_for_backend := false } =
      Except.ok
        { backend_context := ""
          bubble_list := BubbleList.new ⟨"t"⟩
          codeblocks := []
          editor_context := none
          exit_warning := false
          last_known_height := 0
          last_known_width := 0
          messages := [] ++ [editorDownError "neovim" "down"]
          scroll := default
          session_id := "s"
          waiting_for_backend := false } :=
  (C4_editor_health_nonfatal.1
    ⟨Except.ok ⟨"t"⟩, Except.ok (), Except.ok (), Except.ok [],
      Except.ok (), Except.error "down", Except.ok none, "fresh"⟩
    "neovim" _ "down" (by decide) rfl rfl).1

/-- C6: a code-block command whose referenced block fails to resolve
appends exactly one Error-typed message, emits no action on the outbound
channel, and returns with `should_skip_backend_send = true`. -/
theorem C6_unresolvable_code_block (ext : Ext) (new_id : String)
    (st : AppState) (cmd : SlashCommand) (err : String)
    (hkind : cmd.kind = CommandKind.AppendCodeBlock ∨
      cmd.kind = CommandKind.ReplaceCodeBlock ∨
      cmd.kind = CommandKind.CopyCodeBlock)
    (hres : ext.resolve st.codeblocks cmd = Except.error err) :
    (handle_slash_commands ext new_id st (some cmd)).state.messages =
      st.messages ++ [commandParseError err] ∧
    (handle_slash_commands ext new_id st (some cmd)).actions = [] ∧
    (handle_slash_commands ext new_id st (some cmd)).should_continue = true ∧
    (commandParseError err).message_type = MessageType.Error := by
  obtain ⟨k, args⟩ := cmd
  rcases hkind with hk | hk | hk <;>
    simp only at hk <;> subst hk <;>
    simp [handle_slash_commands, hres, SlashCommand.is_quit,
      SlashCommand.is_append_code_block, SlashCommand.is_replace_code_block,
      SlashCommand.is_copy_code_block, commandParseError, Message.new_with_type]

/-- C6 witness: an unresolvable copy-code-block command at a concrete
state and resolver. -/
theorem C6_unresolvable_code_block_witness :
    (handle_slash_commands ⟨fun _ => [], fun _ _ => Except.error "no block 7"⟩
      "fresh"
      { backend_context := ""
        bubble_list := BubbleList.new ⟨"t"⟩
        codeblocks := []
        editor_context := none
        exit_warning := false
        last_known_height := 0
        last_known_width := 0
        messages := [intro_message]
        scroll := default
        session_id := "s"
        waiting_for_backend := false }
      (some ⟨CommandKind.CopyCodeBlock, ["7"]⟩)).actions = [] :=
  (C6_unresolvable_code_block ⟨fun _ => [], fun _ _ => Except.error "no block 7"⟩
    "fresh" _ ⟨CommandKind.CopyCodeBlock, ["7"]⟩ "no block 7"
    (Or.inr (Or.inr rfl)) rfl).2.1

/-! ### Concrete collaborators and states used by counterexamples and
witnesses -/

/-- A concrete collaborator pack: an empty code-block extraction and a
resolver that always yields the block "CODE". -/
def exampleExt : Ext := ⟨fun _ => [], fun _ _ => Except.ok "CODE"⟩

/-- A concrete controller state: the generic greeting only, nothing
pending. -/
def baseState : AppState :=
  { backend_context := ""
    bubble_list := BubbleList.new ⟨"default"⟩
    codeblocks := []
    editor_context := none
    exit_warning := false
    last_known_height := 0
    last_known_width := 0
    messages := [intro_message]
    scroll := default
    session_id := "s"
    waiting_for_backend := false }

/-- A concrete environment in which the editor neither resolves nor is
healthy, and every backend call succeeds. -/
def envNoEditor : InitEnv :=
  ⟨Except.ok ⟨"t"⟩, Except.ok (), Except.ok (), Except.ok [],
    Except.error "no editor", Except.error "no editor", Except.ok none, "fresh"⟩

/-- C2 counterexample: a `done=true` chunk carrying `Some("")` makes
`handle_backend_response` overwrite a non-empty `backend_context` with
the empty string — a reset performed by an operation other than the
model-switch command or `reset_state`. -/
theorem C2_context_reset_by_backend_counterexample :
    Option.map AppState.backend_context
      (handle_backend_response exampleExt
        { baseState with backend_context := "X" }
        ⟨Author.Model, "", true, some ""⟩) = some "" := by
  rfl

/-- C2 (amended): `backend_context` is overwritten only by
`handle_backend_response` on a `done=true` chunk, and then with exactly
the supplied token (which may itself be empty) — otherwise it is
unchanged; `reset_state` always empties it; slash dispatch either leaves
it unchanged or empties it, the latter only for the model-switch and new
commands; viewport and append operations never touch it. -/
theorem C2_amended_context_policy :
    (∀ (ext : Ext) (st : AppState) (msg : BackendResponse) (st' : AppState),
      handle_backend_response ext st msg = some st' →
        st'.backend_context =
          if msg.done then msg.context.getD st.backend_context
          else st.backend_context) ∧
    (∀ (new_id : String) (st : AppState) (clear_context : Bool),
      (reset_state new_id st clear_context).backend_context = "") ∧
    (∀ (ext : Ext) (new_id : String) (st : AppState)
        (parsed : Option SlashCommand),
      (handle_slash_commands ext new_id st parsed).state.backend_context =
          st.backend_context ∨
      ((handle_slash_commands ext new_id st parsed).state.backend_context = "" ∧
        ∃ c, parsed = some c ∧
          (c.kind = CommandKind.ModelSet ∨ c.kind = CommandKind.New))) ∧
    (∀ (st : AppState) (w h : Nat),
      (set_rect st w h).backend_context = st.backend_context) ∧
    (∀ (st : AppState) (m : Message),
      (add_message st m).backend_context = st.backend_context) := by
  refine ⟨?_, ?_, ?_, fun st w h => rfl, fun st m => rfl⟩
  · intro ext st msg st' h
    rw [handle_backend_response] at h
    split at h
    · exact Option.noConfusion h
    · repeat' split at h
      all_goals injection h with h
      all_goals subst h
      all_goals try simp_all [Option.getD]
      all_goals (split <;> simp_all [Option.getD])
  · intro new_id st clear_context
    cases clear_context with
    | true => simp [reset_state]
    | false =>
      cases h : st.editor_context with
      | none => simp [reset_state, h]
      | some ec => simp [reset_state, h]
  · intro ext new_id st parsed
    cases parsed with
    | none => exact Or.inl rfl
    | some c =>
      obtain ⟨k, args⟩ := c
      cases k with
      | Quit =>
        exact Or.inl (by
          simp [handle_slash_commands, dispatch_tail, SlashCommand.is_quit,
            SlashCommand.is_append_code_block, SlashCommand.is_replace_code_block,
            SlashCommand.is_copy_code_block, SlashCommand.is_copy_chat,
            SlashCommand.is_model_set, SlashCommand.is_new])
      | AppendCodeBlock =>
        refine Or.inl ?_
        cases hres : ext.resolve st.codeblocks ⟨CommandKind.AppendCodeBlock, args⟩ with
        | error e =>
          simp [handle_slash_commands, hres, SlashCommand.is_quit,
            SlashCommand.is_append_code_block, SlashCommand.is_replace_code_block,
            SlashCommand.is_copy_code_block]
        | ok text =>
          simp [handle_slash_commands, hres, dispatch_tail, SlashCommand.is_quit,
            SlashCommand.is_append_code_block, SlashCommand.is_replace_code_block,
            SlashCommand.is_copy_code_block, SlashCommand.is_copy_chat,
            SlashCommand.is_model_set, SlashCommand.is_new]
      | ReplaceCodeBlock =>
        refine Or.inl ?_
        cases hres : ext.resolve st.codeblocks ⟨CommandKind.ReplaceCodeBlock, args⟩ with
        | error e =>
          simp [handle_slash_commands, hres, SlashCommand.is_quit,
            SlashCommand.is_append_code_block, SlashCommand.is_replace_code_block,
            SlashCommand.is_copy_code_block]
        | ok text =>
          simp [handle_slash_commands, hres, dispatch_tail, SlashCommand.is_quit,
            SlashCommand.is_append_code_block, SlashCommand.is_replace_code_block,
            SlashCommand.is_copy_code_block, SlashCommand.is_copy_chat,
            SlashCommand.is_model_set, SlashCommand.is_new]
      | CopyCodeBlock =>
        refine Or.inl ?_
        cases hres : ext.resolve st.codeblocks ⟨CommandKind.CopyCodeBlock, args⟩ with
        | error e =>
          simp [handle_slash_commands, hres, SlashCommand.is_quit,
            SlashCommand.is_append_code_block, SlashCommand.is_replace_code_block,
            SlashCommand.is_copy_code_block]
        | ok text =>
          simp [handle_slash_commands, hres, SlashCommand.is_quit,
            SlashCommand.is_append_code_block, SlashCommand.is_replace_code_block,
            SlashCommand.is_copy_code_block]
      | CopyChat =>
        exact Or.inl (by
          simp [handle_slash_commands, dispatch_tail, SlashCommand.is_quit,
            SlashCommand.is_append_code_block, SlashCommand.is_replace_code_block,
            SlashCommand.is_copy_code_block, SlashCommand.is_copy_chat,
            SlashCommand.is_model_set, SlashCommand.is_new])
      | ModelSet =>
        refine Or.inr ⟨?_, ⟨CommandKind.ModelSet, args⟩, rfl, Or.inl rfl⟩
        simp [handle_slash_commands, dispatch_tail, SlashCommand.is_quit,
          SlashCommand.is_append_code_block, SlashCommand.is_replace_code_block,
          SlashCommand.is_copy_code_block, SlashCommand.is_copy_chat,
          SlashCommand.is_model_set, SlashCommand.is_new]
      | New =>
        refine Or.inr ⟨?_, ⟨CommandKind.New, args⟩, rfl, Or.inr rfl⟩
        by_cases hc : (¬args = [] ∧ args.head?.getD "" = "clear") <;>
          cases hec : st.editor_context <;>
          simp [handle_slash_commands, dispatch_tail, SlashCommand.is_quit,
            SlashCommand.is_append_code_block, SlashCommand.is_replace_code_block,
            SlashCommand.is_copy_code_block, SlashCommand.is_copy_chat,
            SlashCommand.is_model_set, SlashCommand.is_new, reset_state, hc, hec]
      | Other =>
        exact Or.inl (by
          simp [handle_slash_commands, dispatch_tail, SlashCommand.is_quit,
            SlashCommand.is_append_code_block, SlashCommand.is_replace_code_block,
            SlashCommand.is_copy_code_block, SlashCommand.is_copy_chat,
            SlashCommand.is_model_set, SlashCommand.is_new])

/-- C2 witness: the amended context policy at a concrete completed chunk
carrying the token "tok". -/
theorem C2_amended_context_policy_witness :
    ((handle_backend_response exampleExt baseState
        ⟨Author.Model, "hi", true, some "tok"⟩).getD baseState).backend_context =
      "tok" := by
  have h := C2_amended_context_policy.1 exampleExt baseState
    ⟨Author.Model, "hi", true, some "tok"⟩
    ((handle_backend_response exampleExt baseState
      ⟨Author.Model, "hi", true, some "tok"⟩).getD baseState) rfl
  simpa using h

/-- C7 counterexample: a replace-code-block command whose block resolves
dispatches an editor-write `AcceptCodeBlock` action on the outbound
channel, yet `waiting_for_backend` stays false on return — the
editor-write side effect does not set the pending marker. -/
theorem C7_accept_leaves_waiting_counterexample :
    (handle_slash_commands exampleExt "fresh" baseState
      (some ⟨CommandKind.ReplaceCodeBlock, []⟩)).actions =
      [Action.AcceptCodeBlock none "CODE" AcceptType.Replace] ∧
    (handle_slash_commands exampleExt "fresh" baseState
      (some ⟨CommandKind.ReplaceCodeBlock, []⟩)).state.waiting_for_backend =
      false := by
  constructor <;> rfl

/-- C7 (amended): the copy-to-clipboard side effects (copy code block,
copy whole chat) set `waiting_for_backend` to true on return; the
editor-write accept action (Append/Replace) is dispatched without
touching `waiting_for_backend`, which keeps its prior value. -/
theorem C7_amended_pending_marker :
    (∀ (ext : Ext) (new_id : String) (st : AppState) (args : List String)
        (text : String),
      ext.resolve st.codeblocks ⟨CommandKind.CopyCodeBlock, args⟩ =
          Except.ok text →
        (handle_slash_commands ext new_id st
          (some ⟨CommandKind.CopyCodeBlock, args⟩)).actions =
          [Action.CopyMessages [Message.new Author.Model text]] ∧
        (handle_slash_commands ext new_id st
          (some ⟨CommandKind.CopyCodeBlock, args⟩)).state.waiting_for_backend =
          true) ∧
    (∀ (ext : Ext) (new_id : String) (st : AppState) (args : List String),
      (handle_slash_commands ext new_id st
        (some ⟨CommandKind.CopyChat, args⟩)).actions =
        [Action.CopyMessages st.messages] ∧
      (handle_slash_commands ext new_id st
        (some ⟨CommandKind.CopyChat, args⟩)).state.waiting_for_backend =
        true) ∧
    (∀ (ext : Ext) (new_id : String) (st : AppState) (args : List String)
        (text : String),
      ext.resolve st.codeblocks ⟨CommandKind.AppendCodeBlock, args⟩ =
          Except.ok text →
        (handle_slash_commands ext new_id st
          (some ⟨CommandKind.AppendCodeBlock, args⟩)).actions =
          [Action.AcceptCodeBlock st.editor_context text AcceptType.Append] ∧
        (handle_slash_commands ext new_id st
          (some ⟨CommandKind.AppendCodeBlock, args⟩)).state.waiting_for_backend =
          st.waiting_for_backend) ∧
    (∀ (ext : Ext) (new_id : String) (st : AppState) (args : List String)
        (text : String),
      ext.resolve st.codeblocks ⟨CommandKind.ReplaceCodeBlock, args⟩ =
          Except.ok text →
        (handle_slash_commands ext new_id st
          (some ⟨CommandKind.ReplaceCodeBlock, args⟩)).actions =
          [Action.AcceptCodeBlock st.editor_context text AcceptType.Replace] ∧
        (handle_slash_commands ext new_id st
          (some ⟨CommandKind.ReplaceCodeBlock, args⟩)).state.waiting_for_backend =
          st.waiting_for_backend) := by
  refine ⟨?_, ?_, ?_, ?_⟩
  · intro ext new_id st args text hres
    simp [handle_slash_commands, hres, SlashCommand.is_quit,
      SlashCommand.is_append_code_block, SlashCommand.is_replace_code_block,
      SlashCommand.is_copy_code_block]
  · intro ext new_id st args
    simp [handle_slash_commands, dispatch_tail, SlashCommand.is_quit,
      SlashCommand.is_append_code_block, SlashCommand.is_replace_code_block,
      SlashCommand.is_copy_code_block, SlashCommand.is_copy_chat,
      SlashCommand.is_model_set, SlashCommand.is_new]
  · intro ext new_id st args text hres
    simp [handle_slash_commands, hres, dispatch_tail, SlashCommand.is_quit,
      SlashCommand.is_append_code_block, SlashCommand.is_replace_code_block,
      SlashCommand.is_copy_code_block, SlashCommand.is_copy_chat,
      SlashCommand.is_model_set, SlashCommand.is_new]
  · intro ext new_id st args text hres
    simp [handle_slash_commands, hres, dispatch_tail, SlashCommand.is_quit,
      SlashCommand.is_append_code_block, SlashCommand.is_replace_code_block,
      SlashCommand.is_copy_code_block, SlashCommand.is_copy_chat,
      SlashCommand.is_model_set, SlashCommand.is_new]

/-- C7 witness: the copy-code-block branch at a concrete resolver and
state. -/
theorem C7_amended_pending_marker_witness :
    (handle_slash_commands exampleExt "fresh" baseState
      (some ⟨CommandKind.CopyCodeBlock, []⟩)).state.waiting_for_backend =
      true :=
  (C7_amended_pending_marker.1 exampleExt "fresh" baseState [] "CODE" rfl).2

/-! ### Session persistence -/

theorem from_session_ok_shape (env : InitEnv) (ext : Ext) (store : Store)
    (props : AppStateProps) (sid : String) (sess : Session) (st' : AppState)
    (hsid : props.session_id = some sid) (hstore : store sid = some sess)
    (h : from_session env ext store props = Except.ok st') :
    st'.backend_context = sess.backend_context ∧
    st'.messages = sess.messages ∧
    st'.waiting_for_backend = false ∧ st'.exit_warning = false ∧
    st'.last_known_width = 0 ∧ st'.last_known_height = 0 ∧
    st'.session_id = sid ∧
    (∀ octx, env.editor_get = Except.ok () → env.editor_health = Except.ok () →
      env.get_context = Except.ok octx → st'.editor_context = octx) := by
  rw [from_session, hsid] at h
  simp only [exceptBindOk, exceptPureEq, Sessions.load, hstore] at h
  cases hth : env.theme with
  | error e => rw [hth] at h; simp at h
  | ok theme =>
    rw [hth] at h
    simp only [exceptBindOk, exceptPureEq] at h
    cases hg : env.editor_get with
    | error e =>
      rw [hg] at h
      simp only at h
      injection h with h
      subst h
      refine ⟨rfl, rfl, rfl, rfl, rfl, rfl, rfl, ?_⟩
      intro octx hg2 _ _
      simp [hg] at hg2
    | ok u =>
      rw [hg] at h
      simp only at h
      cases hh : env.editor_health with
      | error e =>
        rw [hh] at h
        simp only at h
        injection h with h
        subst h
        refine ⟨rfl, rfl, rfl, rfl, rfl, rfl, rfl, ?_⟩
        intro octx _ hh2 _
        simp [hh] at hh2
      | ok v =>
        rw [hh] at h
        simp only at h
        cases hc : env.get_context with
        | error e => rw [hc] at h; simp at h
        | ok octx0 =>
          rw [hc] at h
          simp only [exceptBindOk, exceptPureEq] at h
          injection h with h
          subst h
          refine ⟨rfl, rfl, rfl, rfl, rfl, rfl, rfl, ?_⟩
          intro octx _ _ hc2
          injection hc2 with hc2

/-- C8: saving a session and restoring it under the same id yields a
state whose `backend_context` and `messages` equal the saved ones, while
`waiting_for_backend`, `exit_warning` and the viewport dimensions come
back as their defaults whatever they were before the save. -/
theorem C8_round_trip (env : InitEnv) (ext : Ext) (store : Store)
    (st : AppState) (props : AppStateProps) (st' : AppState)
    (hsid : props.session_id = some st.session_id)
    (h : from_session env ext (save_session store st) props = Except.ok st') :
    st'.backend_context = st.backend_context ∧ st'.messages = st.messages ∧
    st'.waiting_for_backend = false ∧ st'.exit_warning = false ∧
    st'.last_known_width = 0 ∧ st'.last_known_height = 0 := by
  have hstore : save_session store st st.session_id =
      some ⟨st.backend_context, st.editor_context, st.messages⟩ := by
    simp [save_session]
  obtain ⟨h1, h2, h3, h4, h5, h6, -, -⟩ :=
    from_session_ok_shape env ext (save_session store st) props st.session_id
      ⟨st.backend_context, st.editor_context, st.messages⟩ st' hsid hstore h
  exact ⟨h1, h2, h3, h4, h5, h6⟩

/-- C8 witness: the round trip at a concrete state, store and
environment. -/
theorem C8_round_trip_witness :
    ((from_session envNoEditor exampleExt
        (save_session (fun _ => none) baseState)
        ⟨"ollama", "", "llama2", "default", "", some "s"⟩).toOption.getD
      baseState).backend_context = baseState.backend_context :=
  (C8_round_trip envNoEditor exampleExt (fun _ => none) baseState
    ⟨"ollama", "", "llama2", "default", "", some "s"⟩
    ((from_session envNoEditor exampleExt
        (save_session (fun _ => none) baseState)
        ⟨"ollama", "", "llama2", "default", "", some "s"⟩).toOption.getD
      baseState) rfl rfl).1

theorem add_editor_context_ok_append (env : InitEnv) (name : String)
    (st st2 : AppState) (h : add_editor_context env name st = Except.ok st2) :
    ∃ m, st2.messages = st.messages ++ [m] := by
  rw [add_editor_context] at h
  by_cases hname : name = ""
  · simp [hname] at h
  · rw [if_neg hname] at h
    cases hg : env.editor_get with
    | error e => rw [hg] at h; exact Except.noConfusion h
    | ok u =>
      rw [hg] at h
      cases hh : env.editor_health with
      | error err =>
        rw [hh] at h
        injection h with h
        subst h
        exact ⟨_, rfl⟩
      | ok v =>
        rw [hh] at h
        cases hc : env.get_context with
        | error e => rw [hc] at h; exact Except.noConfusion h
        | ok octx =>
          rw [hc] at h
          cases octx with
          | some ec =>
            injection h with h
            subst h
            exact ⟨_, rfl⟩
          | none => exact Except.noConfusion h

/-- C9 counterexample: restoring a persisted session whose stored message
list is empty succeeds and leaves the history empty — `from_session`
completes successfully with `messages = []`. -/
theorem C9_resume_empty_history_counterexample :
    ((from_session envNoEditor exampleExt
        (fun id => if id = "resume" then
            some { backend_context := "ctx", editor_context := none,
                   messages := [] }
          else none)
        ⟨"ollama", "", "llama2", "default", "", some "resume"⟩).toOption).map
      AppState.messages = some [] := by
  rfl

/-- C9 (amended): every successful `init` leaves a non-empty history; a
successful `from_session` restores exactly the stored messages, so its
history is non-empty whenever the stored session's message list is. -/
theorem C9_amended_nonempty_history :
    (∀ (env : InitEnv) (props : AppStateProps) (st' : AppState),
      init env props = Except.ok st' → st'.messages ≠ []) ∧
    (∀ (env : InitEnv) (ext : Ext) (store : Store) (props : AppStateProps)
        (sid : String) (sess : Session) (st' : AppState),
      props.session_id = some sid → store sid = some sess →
      sess.messages ≠ [] →
      from_session env ext store props = Except.ok st' →
      st'.messages ≠ []) := by
  constructor
  · intro env props st' hinit
    cases hth : env.theme with
    | error e => simp [init, hth] at hinit
    | ok theme =>
      cases hbg : env.backend_get with
      | error e => simp [init, hth, hbg] at hinit
      | ok u =>
        cases hhc : env.health_check with
        | error berr =>
          rw [init] at hinit
          simp only [hth, hbg, hhc, exceptBindOk, exceptPureEq] at hinit
          split at hinit
          next s heq =>
            injection hinit with hinit
            subst hinit
            obtain ⟨m, hm⟩ := add_editor_context_ok_append _ _ _ _ heq
            simp [hm]
          next e heq =>
            injection hinit with hinit
            subst hinit
            simp
        | ok v =>
          cases hlm : env.list_models with
          | error e => simp [init, hth, hbg, hhc, hlm] at hinit
          | ok models =>
            by_cases hmem : props.model_name ∈ models
            · rw [init] at hinit
              simp only [hth, hbg, hhc, hlm, hmem, exceptBindOk, exceptPureEq,
                if_pos, if_true] at hinit
              split at hinit
              next s heq =>
                injection hinit with hinit
                subst hinit
                obtain ⟨m, hm⟩ := add_editor_context_ok_append _ _ _ _ heq
                simp [hm]
              next e heq =>
                injection hinit with hinit
                subst hinit
                simp
            · rw [init] at hinit
              simp only [hth, hbg, hhc, hlm, hmem, exceptBindOk, exceptPureEq,
                if_neg, if_false] at hinit
              split at hinit
              next s heq =>
                injection hinit with hinit
                subst hinit
                obtain ⟨m, hm⟩ := add_editor_context_ok_append _ _ _ _ heq
                simp [hm]
              next e heq =>
                injection hinit with hinit
                subst hinit
                simp
  · intro env ext store props sid sess st' hsid hstore hne h
    obtain ⟨-, h2, -, -, -, -, -, -⟩ :=
      from_session_ok_shape env ext store props sid sess st' hsid hstore h
    rw [h2]
    exact hne

/-- C9 witness: a successful concrete `init` (backend healthy, model
missing, no editor), whose history is non-empty. -/
theorem C9_amended_nonempty_history_witness :
    ((init envNoEditor
        ⟨"ollama", "", "llama2", "default", "", none⟩).toOption.getD
      baseState).messages ≠ [] :=
  C9_amended_nonempty_history.1 envNoEditor
    ⟨"ollama", "", "llama2", "default", "", none⟩
    ((init envNoEditor
        ⟨"ollama", "", "llama2", "default", "", none⟩).toOption.getD
      baseState) rfl

/-- C10: `from_session` returns exactly the loaded message sequence — no
message is appended, removed or edited — even when a live editor context
is successfully re-fetched and stored in `editor_context`. -/
theorem C10_resume_preserves_history (env : InitEnv) (ext : Ext)
    (store : Store) (props : AppStateProps) (sid : String) (sess : Session)
    (st' : AppState) (hsid : props.session_id = some sid)
    (hstore : store sid = some sess)
    (h : from_session env ext store props = Except.ok st') :
    st'.messages = sess.messages ∧
    (∀ octx, env.editor_get = Except.ok () → env.editor_health = Except.ok () →
      env.get_context = Except.ok octx → st'.editor_context = octx) := by
  obtain ⟨-, h2, -, -, -, -, -, h8⟩ :=
    from_session_ok_shape env ext store props sid sess st' hsid hstore h
  exact ⟨h2, h8⟩

/-- C10 witness: a concrete resume in which the editor is healthy and a
live context is re-fetched, yet the restored history is exactly the
stored one. -/
theorem C10_resume_preserves_history_witness :
    ((from_session
        ⟨Except.ok ⟨"t"⟩, Except.ok (), Except.ok (), Except.ok [],
          Except.ok (), Except.ok (), Except.ok (some ⟨"live ctx"⟩), "fresh"⟩
        exampleExt
        (fun id => if id = "r" then
            some { backend_context := "bc", editor_context := none,
                   messages := [intro_message] }
          else none)
        ⟨"ollama", "neovim", "llama2", "default", "", some "r"⟩).toOption.getD
      baseState).messages = [intro_message] :=
  (C10_resume_preserves_history
    ⟨Except.ok ⟨"t"⟩, Except.ok (), Except.ok (), Except.ok [],
      Except.ok (), Except.ok (), Except.ok (some ⟨"live ctx"⟩), "fresh"⟩
    exampleExt
    (fun id => if id = "r" then
        some { backend_context := "bc", editor_context := none,
               messages := [intro_message] }
      else none)
    ⟨"ollama", "neovim", "llama2", "default", "", some "r"⟩ "r"
    { backend_context := "bc", editor_context := none,
      messages := [intro_message] }
    ((from_session
        ⟨Except.ok ⟨"t"⟩, Except.ok (), Except.ok (), Except.ok [],
          Except.ok (), Except.ok (), Except.ok (some ⟨"live ctx"⟩), "fresh"⟩
        exampleExt
        (fun id => if id = "r" then
            some { backend_context := "bc", editor_context := none,
                   messages := [intro_message] }
          else none)
        ⟨"ollama", "neovim", "llama2", "default", "", some "r"⟩).toOption.getD
      baseState) rfl rfl rfl).1

end Purfect
